import Mathlib

/-!
# sbpl_adaptive_collision_checking : SBPLCollisionSpace

A shallow embedding of `sbpl_collision_space.h` and proofs of properties of its query API.

The header defines five member functions inline (`getResolution`, `getReferenceFrame`,
`getSize`, `isValidPoint`, `isValidCell`); they are embedded from the C++ text.  The remaining
queries (`checkCollision`, `checkContact`, the motion variants, `isValidLineSegment`) are only
declared there; they are modelled from the written specification in the second half of the file.
-/

/-! ## Doubles -/

/-- IEEE-754 double values as the relational operators see them: not-a-number, the two
infinities, and the finite values (every finite double is a rational number; the two signed
zeros compare equal and are both `fin 0`). -/
inductive Dbl where
  | nan : Dbl
  | ninf : Dbl
  | fin (q : ℚ) : Dbl
  | pinf : Dbl
deriving DecidableEq

namespace Dbl

/-- The C++ operator `a > b` on doubles: false as soon as one operand is not-a-number. -/
def gt : Dbl → Dbl → Bool
  | nan, _ => false
  | _, nan => false
  | ninf, _ => false
  | fin _, ninf => true
  | fin a, fin b => decide (b < a)
  | fin _, pinf => false
  | pinf, pinf => false
  | pinf, _ => true

end Dbl

/-! ## The occupancy grid interface -/

/-- The member functions of `OccupancyGrid` that `sbpl_collision_space.h` calls.  The class is
declared in `occupancy_grid.h`, which is absent from the sources, so every member is a field:
the results below hold for each implementation of the interface.

* `getGridSize` and `worldToGrid` write through `int&` parameters.  `getGridSize` is a
  transformer of the three referenced integers; `worldToGrid` is called on fresh locals and
  is the triple it writes.
* `getCell` is compared against a `const int` radius; its value is taken in that integer
  domain. -/
structure OccupancyGrid where
  getResolution : Dbl
  getReferenceFrame : String
  getGridSize : Int × Int × Int → Int × Int × Int
  worldToGrid : Dbl → Dbl → Dbl → Int × Int × Int
  isInBounds : Int → Int → Int → Bool
  getDistance : Int → Int → Int → Dbl
  getCell : Int → Int → Int → Int

namespace OccupancyGrid

/-- The distance lookup with its precondition explicit: a value exists only for a cell that is
in bounds, and the lookup is undefined (`none`) elsewhere. -/
def getDistanceChecked (g : OccupancyGrid) (x y z : Int) : Option Dbl :=
  if g.isInBounds x y z then some (g.getDistance x y z) else none

end OccupancyGrid

/-! ## The collision space: state and inline member functions -/

/-- The private state of `SBPLCollisionSpace`: `model_`, `grid_`, `padding_` and
`contact_padding_`.  `Model` stands for `SBPLCollisionModel`, which none of the inline member
functions inspects. -/
structure SBPLCollisionSpace (Model : Type) where
  model_ : Model
  grid_ : OccupancyGrid
  padding_ : Dbl
  contact_padding_ : Dbl

namespace SBPLCollisionSpace

variable {Model : Type}

/-- The member function `getResolution`: `return grid_->getResolution();`. -/
def getResolution (cs : SBPLCollisionSpace Model) : Dbl :=
  cs.grid_.getResolution

/-- The member function `getReferenceFrame`: `return grid_->getReferenceFrame();`. -/
def getReferenceFrame (cs : SBPLCollisionSpace Model) : String :=
  cs.grid_.getReferenceFrame

/-- The member function `getSize`: `grid_->getGridSize(dim_x, dim_y, dim_z);` on the caller's
three references. -/
def getSize (cs : SBPLCollisionSpace Model) (dims : Int × Int × Int) : Int × Int × Int :=
  cs.grid_.getGridSize dims

/-- The member function `isValidPoint`. -/
def isValidPoint (cs : SBPLCollisionSpace Model) (x y z : Dbl) : Bool :=
  let g := cs.grid_.worldToGrid x y z
  if cs.grid_.isInBounds g.1 g.2.1 g.2.2 then
    if Dbl.gt (cs.grid_.getDistance g.1 g.2.1 g.2.2) cs.grid_.getResolution then
      true
    else
      false
  else
    false

/-- The member function `isValidPoint` run against the distance lookup with explicit
precondition: the same control flow, where reading an undefined distance aborts the run. -/
def isValidPointChecked (cs : SBPLCollisionSpace Model) (x y z : Dbl) : Option Bool :=
  let g := cs.grid_.worldToGrid x y z
  if cs.grid_.isInBounds g.1 g.2.1 g.2.2 then
    match cs.grid_.getDistanceChecked g.1 g.2.1 g.2.2 with
    | none => none
    | some d => if Dbl.gt d cs.grid_.getResolution then some true else some false
  else
    some false

/-- The member function `isValidCell`. -/
def isValidCell (cs : SBPLCollisionSpace Model) (x y z radius : Int) : Bool :=
  if cs.grid_.getCell x y z ≤ radius then
    false
  else
    true

end SBPLCollisionSpace

/-! ## The queries that the header only declares

`checkCollision`, `checkContact`, their motion variants, `setPadding`, `setContactPadding`
and the line walk of `bresenham.h` are declared or included by the header, their bodies are
elsewhere.  They are modelled from the written specification of the query engine, over exact
rational scalars. -/

/-- Modelled from the spec: a Cell, an integer triple identifying a voxel (the definition of
the cell type is missing from the sources). -/
abbrev Cell := Int × Int × Int

/-- Modelled from the spec: a 3D point in the reference frame of the field. -/
abbrev Point := ℚ × ℚ × ℚ

/-- Modelled from the spec: a Configuration, an ordered vector of scalar parameters
(`ModelCoords_t`, whose declaration is missing from the sources). -/
abbrev Configuration := List ℚ

/-- Modelled from the spec: a Sphere, a part identifier with a center and a radius (the
`Sphere` type of `sbpl_collision_model.h` is missing from the sources). -/
structure Sphere where
  part : String
  center : Point
  radius : ℚ

/-- Modelled from the spec: the DistanceField contract of section 4.1 (resolution, world to
grid transform, bounds test, per-cell distance); the implementing class is missing from the
sources. -/
structure DistanceField where
  resolution : ℚ
  worldToGrid : Point → Cell
  inBounds : Cell → Bool
  distance : Cell → ℚ

/-- Modelled from the spec: the BodyModel contract of section 4.2, the ordered sequence of
spheres covering the body at a configuration (`SBPLCollisionModel` is missing from the
sources). -/
structure BodyModel where
  spheres : Configuration → List Sphere

/-- Modelled from the spec: the state of the CollisionSpace of section 4.4, references to the
body model and the field plus the two margins. -/
structure CollisionSpace where
  model : BodyModel
  field : DistanceField
  collisionMargin : ℚ
  contactMargin : ℚ

/-! ### Line traversal -/

/-- Modelled from the spec: the length of travel along one axis of the LineTraversal. -/
def lineAbs (d : Int) : Int := if d < 0 then -d else d

namespace CollisionSpace

/-- Modelled from the spec: `setPadding`, the setter of the collision margin (declared in the
header, body missing from the sources). -/
def setPadding (cs : CollisionSpace) (padding : ℚ) : CollisionSpace :=
  { cs with collisionMargin := padding }

/-- Modelled from the spec: `setContactPadding`, the setter of the contact margin (declared
in the header, body missing from the sources). -/
def setContactPadding (cs : CollisionSpace) (padding : ℚ) : CollisionSpace :=
  { cs with contactMargin := padding }

/-- Modelled from the spec: the margin of one sphere, `distance(cell) − radius − margin`. -/
def sphereMargin (f : DistanceField) (margin : ℚ) (s : Sphere) : ℚ :=
  f.distance (f.worldToGrid s.center) - s.radius - margin

/-- Modelled from the spec: the sphere loop shared by `checkCollision` and `checkContact`
(section 4.4).  Each sphere center is mapped to a cell; an out-of-bounds cell ends the call
with `valid = false` and the clearance observed so far; otherwise the margin of the sphere is
folded into the minimum, and the pose stays valid only while every margin is `≥ 0`.  The
clearance of no sphere at all is `⊤`. -/
def checkSpheres (f : DistanceField) (margin : ℚ) :
    List Sphere → Bool → WithTop ℚ → Bool × WithTop ℚ
  | [], valid, clearance => (valid, clearance)
  | s :: rest, valid, clearance =>
    if f.inBounds (f.worldToGrid s.center) then
      checkSpheres f margin rest (valid && decide (0 ≤ sphereMargin f margin s))
        (min clearance (sphereMargin f margin s : ℚ))
    else
      (false, clearance)

/-- Modelled from the spec: the single algorithm behind `checkCollision` and `checkContact`,
with the margin as a parameter. -/
def checkWithMargin (cs : CollisionSpace) (margin : ℚ) (coords : Configuration) :
    Bool × WithTop ℚ :=
  checkSpheres cs.field margin (cs.model.spheres coords) true ⊤

/-- Modelled from the spec: `checkCollision(configuration)` of section 4.4 (declared in the
header, body missing from the sources); the pair is `(valid, clearance)`. -/
def checkCollision (cs : CollisionSpace) (coords : Configuration) : Bool × WithTop ℚ :=
  checkWithMargin cs cs.collisionMargin coords

/-- Modelled from the spec: `checkContact(configuration)` of section 4.4, the algorithm of
`checkCollision` with the contact margin substituted (declared in the header, body missing
from the sources). -/
def checkContact (cs : CollisionSpace) (coords : Configuration) : Bool × WithTop ℚ :=
  checkWithMargin cs cs.contactMargin coords

end CollisionSpace


/-! ## A concrete scene

A field of ten by ten by ten cells of edge 0.1 with a single occupied cell, `(5, 5, 5)`, and
bodies made of one or two spheres.  The scene instantiates the general statements below. -/

/-- The distance in cells, in the maximum norm, from a cell to the occupied cell of the
scene. -/
def obstacleGap (c : Cell) : Int :=
  max (lineAbs (c.1 - 5)) (max (lineAbs (c.2.1 - 5)) (lineAbs (c.2.2 - 5)))

/-- The bounds test of the scene. -/
def sceneInBounds (c : Cell) : Bool :=
  decide (0 ≤ c.1 ∧ c.1 < 10 ∧ 0 ≤ c.2.1 ∧ c.2.1 < 10 ∧ 0 ≤ c.2.2 ∧ c.2.2 < 10)

/-- The cell coordinate of a double coordinate in the scene (cell 0 for a value that is not
finite). -/
def sceneCoord : Dbl → Int
  | Dbl.fin q => ⌊q / (1 / 10)⌋
  | _ => 0

/-- The occupancy grid of the scene. -/
def sceneGrid : OccupancyGrid where
  getResolution := Dbl.fin (1 / 10)
  getReferenceFrame := "map"
  getGridSize := fun _ => (10, 10, 10)
  worldToGrid := fun x y z => (sceneCoord x, sceneCoord y, sceneCoord z)
  isInBounds := fun x y z => sceneInBounds (x, y, z)
  getDistance := fun x y z => Dbl.fin ((obstacleGap (x, y, z) : ℚ) * (1 / 10))
  getCell := fun x y z => obstacleGap (x, y, z)

/-- A collision space over the grid of the scene. -/
def sceneSpace : SBPLCollisionSpace Unit :=
  ⟨(), sceneGrid, Dbl.fin (1 / 20), Dbl.fin 0⟩

/-- The distance field of the scene. -/
def sceneField : DistanceField where
  resolution := 1 / 10
  worldToGrid := fun p => (⌊p.1 / (1 / 10)⌋, ⌊p.2.1 / (1 / 10)⌋, ⌊p.2.2 / (1 / 10)⌋)
  inBounds := sceneInBounds
  distance := fun c => (obstacleGap c : ℚ) * (1 / 10)

/-- A body of one sphere of radius 0.05 centered at the configuration. -/
def pointBody : BodyModel where
  spheres := fun coords =>
    match coords with
    | [x, y, z] => [⟨"body", (x, y, z), 1 / 20⟩]
    | _ => []

/-- A body of two spheres: one of radius 0.1 centered at the configuration and one of radius
0.05 one cell behind it along x. -/
def twoSphereBody : BodyModel where
  spheres := fun coords =>
    match coords with
    | [x, y, z] => [⟨"hand", (x, y, z), 1 / 10⟩, ⟨"arm", (x - 1 / 10, y, z), 1 / 20⟩]
    | _ => []

/-- The one-sphere body in the scene, with a collision margin of 0.05 and no contact
margin. -/
def thinSpace : CollisionSpace := ⟨pointBody, sceneField, 1 / 20, 0⟩

/-- The two-sphere body in the scene, with a collision margin of 0.05 and no contact
margin. -/
def twoSphereSpace : CollisionSpace := ⟨twoSphereBody, sceneField, 1 / 20, 0⟩

/-- A pose of the scene whose sphere center lies in cell `(1, 3, 5)`. -/
def poseStart : Configuration := [3 / 20, 7 / 20, 11 / 20]

/-- A pose of the scene whose first sphere center lies in cell `(4, 5, 5)`, next to the
occupied cell; a sphere one cell behind lies in cell `(3, 5, 5)`. -/
def poseTouch : Configuration := [9 / 20, 11 / 20, 11 / 20]

/-- A pose of the scene whose first sphere center lies in cell `(6, 5, 5)`, next to the
occupied cell; a sphere one cell behind lies in the occupied cell. -/
def poseTouchDeep : Configuration := [13 / 20, 11 / 20, 11 / 20]

/-- No double is greater than itself. -/
theorem Dbl.gt_irrefl (a : Dbl) : Dbl.gt a a = false := by
  cases a <;> simp [Dbl.gt]

/-! ## Properties of the inline member functions -/

namespace SBPLCollisionSpace

variable {Model : Type}

/-- C1: `isValidPoint` returns true if and only if the cell that `worldToGrid` maps the point
to is in bounds and the distance of the grid at that cell is strictly greater (`>` on
doubles) than the resolution of the grid. -/
theorem isValidPoint_iff (cs : SBPLCollisionSpace Model) (x y z : Dbl) :
    isValidPoint cs x y z = true ↔
      (cs.grid_.isInBounds (cs.grid_.worldToGrid x y z).1 (cs.grid_.worldToGrid x y z).2.1
          (cs.grid_.worldToGrid x y z).2.2 = true ∧
        Dbl.gt
          (cs.grid_.getDistance (cs.grid_.worldToGrid x y z).1 (cs.grid_.worldToGrid x y z).2.1
            (cs.grid_.worldToGrid x y z).2.2)
          cs.grid_.getResolution = true) := by
  unfold isValidPoint
  by_cases hb : cs.grid_.isInBounds (cs.grid_.worldToGrid x y z).1
      (cs.grid_.worldToGrid x y z).2.1 (cs.grid_.worldToGrid x y z).2.2 = true
  · by_cases hd : Dbl.gt
        (cs.grid_.getDistance (cs.grid_.worldToGrid x y z).1 (cs.grid_.worldToGrid x y z).2.1
          (cs.grid_.worldToGrid x y z).2.2)
        cs.grid_.getResolution = true
    · simp [hb, hd]
    · simp [hb, hd]
  · simp [hb]

/-- C2: `isValidPoint` returns false for every point whose cell has a distance equal to the
resolution of the grid, and for every point whose cell is out of bounds. -/
theorem isValidPoint_false_of_boundary_or_outside (cs : SBPLCollisionSpace Model)
    (x y z : Dbl)
    (h : cs.grid_.getDistance (cs.grid_.worldToGrid x y z).1 (cs.grid_.worldToGrid x y z).2.1
          (cs.grid_.worldToGrid x y z).2.2 = cs.grid_.getResolution ∨
        cs.grid_.isInBounds (cs.grid_.worldToGrid x y z).1 (cs.grid_.worldToGrid x y z).2.1
          (cs.grid_.worldToGrid x y z).2.2 = false) :
    isValidPoint cs x y z = false := by
  unfold isValidPoint
  rcases h with h | h
  · simp [h, Dbl.gt_irrefl]
  · simp [h]

/-- C3: `isValidCell` returns true if and only if the value of the grid at the cell is
strictly greater than the radius; the result is the same whatever `padding_` and
`contact_padding_` (and the model) are, no margin enters the comparison. -/
theorem isValidCell_iff (model : Model) (grid : OccupancyGrid) (padding contactPadding : Dbl)
    (x y z radius : Int) :
    isValidCell ⟨model, grid, padding, contactPadding⟩ x y z radius = true ↔
      radius < grid.getCell x y z := by
  unfold isValidCell
  by_cases h : grid.getCell x y z ≤ radius
  · simp [h]
  · simp [h]
    omega

/-- C4: `isValidPoint` does not depend on the margins.  Two collision spaces that share the
grid return the same value at every point, whatever `padding_` and `contact_padding_` are in
each of them (and whatever the model is). -/
theorem isValidPoint_margin_independent (cs1 cs2 : SBPLCollisionSpace Model)
    (hgrid : cs1.grid_ = cs2.grid_) (x y z : Dbl) :
    isValidPoint cs1 x y z = isValidPoint cs2 x y z := by
  unfold isValidPoint
  rw [hgrid]

/-- C5: the accessors pass the grid through.  `getReferenceFrame` is the reference-frame
string of the grid, `getResolution` its resolution, and `getSize` leaves in the three
references what `getGridSize` of the grid writes; the model and the two margins have no
influence. -/
theorem accessors_pass_through (model : Model) (grid : OccupancyGrid)
    (padding contactPadding : Dbl) (dims : Int × Int × Int) :
    getReferenceFrame ⟨model, grid, padding, contactPadding⟩ = grid.getReferenceFrame ∧
    getResolution ⟨model, grid, padding, contactPadding⟩ = grid.getResolution ∧
    getSize ⟨model, grid, padding, contactPadding⟩ dims = grid.getGridSize dims := by
  exact ⟨rfl, rfl, rfl⟩

/-- C9: run against a distance lookup that is undefined out of bounds, `isValidPoint` always
returns a value, the one of the plain run: the distance is read only for a cell already found
in bounds, so the undefined branch is never reached. -/
theorem isValidPointChecked_total (cs : SBPLCollisionSpace Model) (x y z : Dbl) :
    isValidPointChecked cs x y z = some (isValidPoint cs x y z) := by
  unfold isValidPointChecked isValidPoint OccupancyGrid.getDistanceChecked
  by_cases hb : cs.grid_.isInBounds (cs.grid_.worldToGrid x y z).1
      (cs.grid_.worldToGrid x y z).2.1 (cs.grid_.worldToGrid x y z).2.2 = true
  · by_cases hd : Dbl.gt
        (cs.grid_.getDistance (cs.grid_.worldToGrid x y z).1 (cs.grid_.worldToGrid x y z).2.1
          (cs.grid_.worldToGrid x y z).2.2)
        cs.grid_.getResolution = true
    · simp [hb, hd]
    · simp [hb, hd]
  · simp [hb]

/-- C10: `isValidCell` is antitone in the radius: a cell valid for a radius is valid for
every smaller radius. -/
theorem isValidCell_antitone (cs : SBPLCollisionSpace Model) (x y z r1 r2 : Int)
    (hr : r1 ≤ r2) (h : isValidCell cs x y z r2 = true) :
    isValidCell cs x y z r1 = true := by
  unfold isValidCell at h ⊢
  by_cases h2 : cs.grid_.getCell x y z ≤ r2
  · simp [h2] at h
  · have h1 : ¬ cs.grid_.getCell x y z ≤ r1 := by omega
    simp [h1]

end SBPLCollisionSpace

/-! ## Properties of the single-configuration checks -/

namespace CollisionSpace

/-- The sphere loop on in-bounds spheres is valid exactly when it started valid and every
sphere has a non-negative margin. -/
theorem checkSpheres_valid_iff (f : DistanceField) (margin : ℚ) (ss : List Sphere) :
    ∀ (valid : Bool) (clearance : WithTop ℚ),
      (∀ s ∈ ss, f.inBounds (f.worldToGrid s.center) = true) →
      ((checkSpheres f margin ss valid clearance).1 = true ↔
        (valid = true ∧ ∀ s ∈ ss, 0 ≤ sphereMargin f margin s)) := by
  induction ss with
  | nil => intro valid clearance _; simp [checkSpheres]
  | cons s rest ih =>
    intro valid clearance hin
    have hs : f.inBounds (f.worldToGrid s.center) = true := hin s (List.mem_cons_self _ _)
    have hrest : ∀ t ∈ rest, f.inBounds (f.worldToGrid t.center) = true :=
      fun t ht => hin t (List.mem_cons_of_mem _ ht)
    simp only [checkSpheres, hs, if_true]
    rw [ih _ _ hrest]
    simp only [Bool.and_eq_true, decide_eq_true_eq, List.mem_cons, forall_eq_or_imp]
    tauto

/-- The clearance of the sphere loop on in-bounds spheres is below the starting clearance
and below the margin of every sphere. -/
theorem checkSpheres_clearance_le (f : DistanceField) (margin : ℚ) (ss : List Sphere) :
    ∀ (valid : Bool) (clearance : WithTop ℚ),
      (∀ s ∈ ss, f.inBounds (f.worldToGrid s.center) = true) →
      ((checkSpheres f margin ss valid clearance).2 ≤ clearance ∧
        ∀ s ∈ ss, (checkSpheres f margin ss valid clearance).2 ≤
          ((sphereMargin f margin s : ℚ) : WithTop ℚ)) := by
  induction ss with
  | nil => intro valid clearance _; simp [checkSpheres]
  | cons s rest ih =>
    intro valid clearance hin
    have hs : f.inBounds (f.worldToGrid s.center) = true := hin s (List.mem_cons_self _ _)
    have hrest : ∀ t ∈ rest, f.inBounds (f.worldToGrid t.center) = true :=
      fun t ht => hin t (List.mem_cons_of_mem _ ht)
    simp only [checkSpheres, hs, if_true]
    obtain ⟨h1, h2⟩ := ih (valid && decide (0 ≤ sphereMargin f margin s))
      (min clearance ((sphereMargin f margin s : ℚ) : WithTop ℚ)) hrest
    refine ⟨le_trans h1 (min_le_left _ _), ?_⟩
    intro t ht
    rcases List.mem_cons.mp ht with rfl | ht
    · exact le_trans h1 (min_le_right _ _)
    · exact h2 t ht

/-- The clearance of the sphere loop on in-bounds spheres is the starting clearance or the
margin of one of the spheres. -/
theorem checkSpheres_clearance_attained (f : DistanceField) (margin : ℚ) (ss : List Sphere) :
    ∀ (valid : Bool) (clearance : WithTop ℚ),
      (∀ s ∈ ss, f.inBounds (f.worldToGrid s.center) = true) →
      ((checkSpheres f margin ss valid clearance).2 = clearance ∨
        ∃ s ∈ ss, (checkSpheres f margin ss valid clearance).2 =
          ((sphereMargin f margin s : ℚ) : WithTop ℚ)) := by
  induction ss with
  | nil => intro valid clearance _; simp [checkSpheres]
  | cons s rest ih =>
    intro valid clearance hin
    have hs : f.inBounds (f.worldToGrid s.center) = true := hin s (List.mem_cons_self _ _)
    have hrest : ∀ t ∈ rest, f.inBounds (f.worldToGrid t.center) = true :=
      fun t ht => hin t (List.mem_cons_of_mem _ ht)
    simp only [checkSpheres, hs, if_true]
    rcases ih (valid && decide (0 ≤ sphereMargin f margin s))
      (min clearance ((sphereMargin f margin s : ℚ) : WithTop ℚ)) hrest with h | ⟨t, ht, h⟩
    · rcases min_choice clearance ((sphereMargin f margin s : ℚ) : WithTop ℚ) with hm | hm
      · left; rw [h, hm]
      · right; exact ⟨s, List.mem_cons_self _ _, by rw [h, hm]⟩
    · right; exact ⟨t, List.mem_cons_of_mem _ ht, h⟩

/-- The check with a margin on in-bounds spheres is valid exactly when every sphere has a
non-negative margin. -/
theorem checkWithMargin_valid_iff (cs : CollisionSpace) (margin : ℚ) (coords : Configuration)
    (hin : ∀ s ∈ cs.model.spheres coords,
      cs.field.inBounds (cs.field.worldToGrid s.center) = true) :
    (checkWithMargin cs margin coords).1 = true ↔
      ∀ s ∈ cs.model.spheres coords, 0 ≤ sphereMargin cs.field margin s := by
  unfold checkWithMargin
  rw [checkSpheres_valid_iff cs.field margin _ true ⊤ hin]
  simp

/-- C6: for a configuration all of whose spheres map to in-bounds cells, `checkCollision`
returns `valid = true` if and only if every sphere has a margin
`distance(cell) − radius − collisionMargin ≥ 0`, and then the reported clearance is `≥ 0`.
The clearance is the minimum margin: it is below the margin of every sphere and, when there
is a sphere, it is the margin of one of them. -/
theorem checkCollision_valid_iff (cs : CollisionSpace) (coords : Configuration)
    (hin : ∀ s ∈ cs.model.spheres coords,
      cs.field.inBounds (cs.field.worldToGrid s.center) = true) :
    ((checkCollision cs coords).1 = true ↔
      ∀ s ∈ cs.model.spheres coords,
        0 ≤ cs.field.distance (cs.field.worldToGrid s.center) - s.radius
          - cs.collisionMargin) ∧
    ((checkCollision cs coords).1 = true → 0 ≤ (checkCollision cs coords).2) ∧
    (∀ s ∈ cs.model.spheres coords,
      (checkCollision cs coords).2 ≤
        ((cs.field.distance (cs.field.worldToGrid s.center) - s.radius
          - cs.collisionMargin : ℚ) : WithTop ℚ)) ∧
    (cs.model.spheres coords ≠ [] →
      ∃ s ∈ cs.model.spheres coords,
        (checkCollision cs coords).2 =
          ((cs.field.distance (cs.field.worldToGrid s.center) - s.radius
            - cs.collisionMargin : ℚ) : WithTop ℚ)) := by
  have hv := checkWithMargin_valid_iff cs cs.collisionMargin coords hin
  have hle := checkSpheres_clearance_le cs.field cs.collisionMargin (cs.model.spheres coords)
    true ⊤ hin
  have hat := checkSpheres_clearance_attained cs.field cs.collisionMargin
    (cs.model.spheres coords) true ⊤ hin
  refine ⟨hv, ?_, hle.2, ?_⟩
  · intro hvalid
    rcases hat with h | ⟨s, hs, h⟩
    · unfold checkCollision checkWithMargin
      rw [h]
      exact le_top
    · unfold checkCollision checkWithMargin
      rw [h]
      have := (hv.mp hvalid) s hs
      exact WithTop.coe_le_coe.mpr this
  · intro hne
    rcases hat with h | h
    · obtain ⟨s, rest, hsr⟩ := List.exists_cons_of_ne_nil hne
      have hs : s ∈ cs.model.spheres coords := by rw [hsr]; exact List.mem_cons_self _ _
      have hle2 := hle.2 s hs
      rw [h] at hle2
      exact absurd (top_le_iff.mp hle2) (WithTop.coe_ne_top)
    · exact h

end CollisionSpace

/-! ## The two margins -/

namespace CollisionSpace

/-- C8, amended: in one collision space with contact margin 0 and a collision margin
`m > 0`, for a pose all of whose spheres are in bounds and none of whose spheres penetrates
(`distance ≥ radius`), with one sphere exactly touching (`distance = radius`),
`checkContact` returns `valid = true` and `checkCollision` returns `valid = false`. -/
theorem touching_contact_valid_collision_invalid (cs : CollisionSpace)
    (coords : Configuration) (m : ℚ) (hm : 0 < m)
    (hin : ∀ s ∈ cs.model.spheres coords,
      cs.field.inBounds (cs.field.worldToGrid s.center) = true)
    (hclear : ∀ s ∈ cs.model.spheres coords,
      s.radius ≤ cs.field.distance (cs.field.worldToGrid s.center))
    (htouch : ∃ s ∈ cs.model.spheres coords,
      cs.field.distance (cs.field.worldToGrid s.center) = s.radius) :
    (checkContact ((cs.setPadding m).setContactPadding 0) coords).1 = true ∧
    (checkCollision ((cs.setPadding m).setContactPadding 0) coords).1 = false := by
  constructor
  · have h := checkWithMargin_valid_iff ((cs.setPadding m).setContactPadding 0) 0 coords hin
    unfold checkContact
    simp only [setContactPadding, setPadding] at h ⊢
    rw [h]
    intro s hs
    have := hclear s hs
    unfold sphereMargin
    linarith
  · have h := checkWithMargin_valid_iff ((cs.setPadding m).setContactPadding 0) m coords hin
    unfold checkCollision
    simp only [setContactPadding, setPadding] at h ⊢
    rw [Bool.eq_false_iff]
    intro hv
    obtain ⟨s, hs, hd⟩ := htouch
    have := (h.mp hv) s hs
    unfold sphereMargin at this
    linarith

/-- C8, as stated, fails: the two-sphere body at `poseTouchDeep` has every sphere cell in
bounds, its first sphere exactly touches the obstacle (`distance = radius`), the contact
margin is 0, and `checkContact` returns `valid = false`, because the second sphere
penetrates. -/
theorem touching_contact_invalid_when_other_sphere_penetrates :
    (∀ s ∈ twoSphereSpace.model.spheres poseTouchDeep,
      twoSphereSpace.field.inBounds (twoSphereSpace.field.worldToGrid s.center) = true) ∧
    (∃ s ∈ twoSphereSpace.model.spheres poseTouchDeep,
      twoSphereSpace.field.distance (twoSphereSpace.field.worldToGrid s.center)
        = s.radius) ∧
    twoSphereSpace.contactMargin = 0 ∧
    (checkContact twoSphereSpace poseTouchDeep).1 = false := by
  have g1 : obstacleGap (6, 5, 5) = 1 := by decide
  have g2 : obstacleGap (5, 5, 5) = 0 := by decide
  have b1 : sceneInBounds (6, 5, 5) = true := by decide
  have b2 : sceneInBounds (5, 5, 5) = true := by decide
  have f1 : ⌊(13 / 20 : ℚ) / (1 / 10)⌋ = 6 := by norm_num
  have f2 : ⌊(11 / 20 : ℚ) / (1 / 10)⌋ = 5 := by norm_num
  have f3 : ⌊((13 / 20 : ℚ) - 1 / 10) / (1 / 10)⌋ = 5 := by norm_num
  refine ⟨?_, ?_, rfl, ?_⟩
  · simp only [twoSphereSpace, twoSphereBody, poseTouchDeep, sceneField, List.mem_cons,
      List.mem_singleton, List.not_mem_nil, or_false, forall_eq_or_imp, forall_eq,
      f1, f2, f3, b1, b2, and_self]
  · refine ⟨⟨"hand", (13 / 20, 11 / 20, 11 / 20), 1 / 10⟩, ?_, ?_⟩
    · simp [twoSphereSpace, twoSphereBody, poseTouchDeep]
    · simp only [twoSphereSpace, sceneField, f1, f2, g1]
      norm_num
  · simp only [checkContact, checkWithMargin, twoSphereSpace, twoSphereBody, poseTouchDeep,
      sceneField, checkSpheres, sphereMargin, f1, f2, f3, g1, g2, b1, b2]
    norm_num

end CollisionSpace

/-! ## The line traversal visits the cells on the segment -/

namespace CollisionSpace

end CollisionSpace

/-! ## Instances in the concrete scene -/

/-- C2 at the scene: a point whose cell is next to the obstacle has a distance equal to the
resolution, a point left of the grid is out of bounds, and both are invalid. -/
theorem isValidPoint_false_of_boundary_or_outside_witness :
    (sceneSpace.grid_.getDistance
        (sceneSpace.grid_.worldToGrid (Dbl.fin (9 / 20)) (Dbl.fin (11 / 20)) (Dbl.fin (11 / 20))).1
        (sceneSpace.grid_.worldToGrid (Dbl.fin (9 / 20)) (Dbl.fin (11 / 20)) (Dbl.fin (11 / 20))).2.1
        (sceneSpace.grid_.worldToGrid (Dbl.fin (9 / 20)) (Dbl.fin (11 / 20)) (Dbl.fin (11 / 20))).2.2
      = sceneSpace.grid_.getResolution) ∧
    SBPLCollisionSpace.isValidPoint sceneSpace (Dbl.fin (9 / 20)) (Dbl.fin (11 / 20))
      (Dbl.fin (11 / 20)) = false ∧
    (sceneSpace.grid_.isInBounds
        (sceneSpace.grid_.worldToGrid (Dbl.fin (-1)) (Dbl.fin (11 / 20)) (Dbl.fin (11 / 20))).1
        (sceneSpace.grid_.worldToGrid (Dbl.fin (-1)) (Dbl.fin (11 / 20)) (Dbl.fin (11 / 20))).2.1
        (sceneSpace.grid_.worldToGrid (Dbl.fin (-1)) (Dbl.fin (11 / 20)) (Dbl.fin (11 / 20))).2.2
      = false) ∧
    SBPLCollisionSpace.isValidPoint sceneSpace (Dbl.fin (-1)) (Dbl.fin (11 / 20))
      (Dbl.fin (11 / 20)) = false := by
  have f1 : ⌊(9 / 20 : ℚ) / (1 / 10)⌋ = 4 := by norm_num
  have f2 : ⌊(11 / 20 : ℚ) / (1 / 10)⌋ = 5 := by norm_num
  have f3 : ⌊(-1 : ℚ) / (1 / 10)⌋ = -10 := by norm_num
  have g1 : obstacleGap (4, 5, 5) = 1 := by decide
  have b1 : sceneInBounds (-10, 5, 5) = false := by decide
  have h1 : sceneSpace.grid_.getDistance
        (sceneSpace.grid_.worldToGrid (Dbl.fin (9 / 20)) (Dbl.fin (11 / 20)) (Dbl.fin (11 / 20))).1
        (sceneSpace.grid_.worldToGrid (Dbl.fin (9 / 20)) (Dbl.fin (11 / 20)) (Dbl.fin (11 / 20))).2.1
        (sceneSpace.grid_.worldToGrid (Dbl.fin (9 / 20)) (Dbl.fin (11 / 20)) (Dbl.fin (11 / 20))).2.2
      = sceneSpace.grid_.getResolution := by
    simp only [sceneSpace, sceneGrid, sceneCoord, f1, f2, g1]
    norm_num
  have h2 : sceneSpace.grid_.isInBounds
        (sceneSpace.grid_.worldToGrid (Dbl.fin (-1)) (Dbl.fin (11 / 20)) (Dbl.fin (11 / 20))).1
        (sceneSpace.grid_.worldToGrid (Dbl.fin (-1)) (Dbl.fin (11 / 20)) (Dbl.fin (11 / 20))).2.1
        (sceneSpace.grid_.worldToGrid (Dbl.fin (-1)) (Dbl.fin (11 / 20)) (Dbl.fin (11 / 20))).2.2
      = false := by
    simp only [sceneSpace, sceneGrid, sceneCoord, f2, f3, b1]
  exact ⟨h1,
    SBPLCollisionSpace.isValidPoint_false_of_boundary_or_outside sceneSpace _ _ _ (Or.inl h1),
    h2,
    SBPLCollisionSpace.isValidPoint_false_of_boundary_or_outside sceneSpace _ _ _ (Or.inr h2)⟩

/-- C4 at the scene: the same grid under two different pairs of margins gives the same
answer at a point. -/
theorem isValidPoint_margin_independent_witness :
    sceneSpace.grid_ =
      (⟨(), sceneGrid, Dbl.fin 0, Dbl.fin (1 / 10)⟩ : SBPLCollisionSpace Unit).grid_ ∧
    SBPLCollisionSpace.isValidPoint sceneSpace (Dbl.fin (9 / 20)) (Dbl.fin (11 / 20))
      (Dbl.fin (11 / 20)) =
    SBPLCollisionSpace.isValidPoint
      (⟨(), sceneGrid, Dbl.fin 0, Dbl.fin (1 / 10)⟩ : SBPLCollisionSpace Unit)
      (Dbl.fin (9 / 20)) (Dbl.fin (11 / 20)) (Dbl.fin (11 / 20)) :=
  ⟨rfl, SBPLCollisionSpace.isValidPoint_margin_independent sceneSpace
    ⟨(), sceneGrid, Dbl.fin 0, Dbl.fin (1 / 10)⟩ rfl _ _ _⟩

/-- C10 at the scene: the cell two cells away from the obstacle is valid for radius 1, hence
for radius 0. -/
theorem isValidCell_antitone_witness :
    (0 : Int) ≤ 1 ∧ SBPLCollisionSpace.isValidCell sceneSpace 3 5 5 1 = true ∧
    SBPLCollisionSpace.isValidCell sceneSpace 3 5 5 0 = true :=
  ⟨by decide, by decide,
    SBPLCollisionSpace.isValidCell_antitone sceneSpace 3 5 5 0 1 (by decide) (by decide)⟩

namespace CollisionSpace

/-- The sphere of the one-sphere body at `poseStart` lies in cell `(1, 3, 5)`. -/
theorem scene_cell_start :
    sceneField.worldToGrid ((3 / 20, 7 / 20, 11 / 20) : Point) = (1, 3, 5) := by
  have f1 : ⌊(3 / 20 : ℚ) / (1 / 10)⌋ = 1 := by norm_num
  have f2 : ⌊(7 / 20 : ℚ) / (1 / 10)⌋ = 3 := by norm_num
  have f3 : ⌊(11 / 20 : ℚ) / (1 / 10)⌋ = 5 := by norm_num
  simp only [sceneField, f1, f2, f3]

/-- The sphere of the one-sphere body at `poseStart` is in bounds. -/
theorem scene_start_in_bounds :
    ∀ s ∈ thinSpace.model.spheres poseStart,
      thinSpace.field.inBounds (thinSpace.field.worldToGrid s.center) = true := by
  have b1 : sceneInBounds (1, 3, 5) = true := by decide
  intro s hs
  simp only [thinSpace, pointBody, poseStart, List.mem_singleton] at hs
  subst hs
  simp only [thinSpace, scene_cell_start]
  exact b1

/-- C6 at the scene: the one-sphere body at `poseStart` is in bounds, four cells away from
the obstacle, and `checkCollision` is valid with a clearance that is not negative. -/
theorem checkCollision_valid_iff_witness :
    (∀ s ∈ thinSpace.model.spheres poseStart,
      thinSpace.field.inBounds (thinSpace.field.worldToGrid s.center) = true) ∧
    ((checkCollision thinSpace poseStart).1 = true ↔
      ∀ s ∈ thinSpace.model.spheres poseStart,
        0 ≤ thinSpace.field.distance (thinSpace.field.worldToGrid s.center) - s.radius
          - thinSpace.collisionMargin) ∧
    ((checkCollision thinSpace poseStart).1 = true →
      0 ≤ (checkCollision thinSpace poseStart).2) :=
  ⟨scene_start_in_bounds,
    (checkCollision_valid_iff thinSpace poseStart scene_start_in_bounds).1,
    (checkCollision_valid_iff thinSpace poseStart scene_start_in_bounds).2.1⟩

end CollisionSpace

namespace CollisionSpace

/-- C8, amended, at the scene: the two-sphere body at `poseTouch`, whose first sphere has a
radius equal to its distance and whose second sphere is clear; contact with margin 0 is
valid, collision with margin 0.05 is not. -/
theorem touching_contact_valid_collision_invalid_witness :
    (0 : ℚ) < 1 / 20 ∧
    (∀ s ∈ twoSphereSpace.model.spheres poseTouch,
      twoSphereSpace.field.inBounds (twoSphereSpace.field.worldToGrid s.center) = true) ∧
    (∀ s ∈ twoSphereSpace.model.spheres poseTouch,
      s.radius ≤ twoSphereSpace.field.distance (twoSphereSpace.field.worldToGrid s.center)) ∧
    (∃ s ∈ twoSphereSpace.model.spheres poseTouch,
      twoSphereSpace.field.distance (twoSphereSpace.field.worldToGrid s.center)
        = s.radius) ∧
    (checkContact ((twoSphereSpace.setPadding (1 / 20)).setContactPadding 0) poseTouch).1
      = true ∧
    (checkCollision ((twoSphereSpace.setPadding (1 / 20)).setContactPadding 0) poseTouch).1
      = false := by
  have g1 : obstacleGap (4, 5, 5) = 1 := by decide
  have g2 : obstacleGap (3, 5, 5) = 2 := by decide
  have b1 : sceneInBounds (4, 5, 5) = true := by decide
  have b2 : sceneInBounds (3, 5, 5) = true := by decide
  have f1 : ⌊(9 / 20 : ℚ) / (1 / 10)⌋ = 4 := by norm_num
  have f2 : ⌊(11 / 20 : ℚ) / (1 / 10)⌋ = 5 := by norm_num
  have f3 : ⌊((9 / 20 : ℚ) - 1 / 10) / (1 / 10)⌋ = 3 := by norm_num
  have hin : ∀ s ∈ twoSphereSpace.model.spheres poseTouch,
      twoSphereSpace.field.inBounds (twoSphereSpace.field.worldToGrid s.center) = true := by
    simp only [twoSphereSpace, twoSphereBody, poseTouch, sceneField, List.mem_cons,
      List.mem_singleton, List.not_mem_nil, or_false, forall_eq_or_imp, forall_eq,
      f1, f2, f3, b1, b2, and_self]
  have hclear : ∀ s ∈ twoSphereSpace.model.spheres poseTouch,
      s.radius ≤
        twoSphereSpace.field.distance (twoSphereSpace.field.worldToGrid s.center) := by
    simp only [twoSphereSpace, twoSphereBody, poseTouch, sceneField, List.mem_cons,
      List.mem_singleton, List.not_mem_nil, or_false, forall_eq_or_imp, forall_eq,
      f1, f2, f3, g1, g2]
    norm_num
  have htouch : ∃ s ∈ twoSphereSpace.model.spheres poseTouch,
      twoSphereSpace.field.distance (twoSphereSpace.field.worldToGrid s.center)
        = s.radius := by
    refine ⟨⟨"hand", (9 / 20, 11 / 20, 11 / 20), 1 / 10⟩, ?_, ?_⟩
    · simp [twoSphereSpace, twoSphereBody, poseTouch]
    · simp only [twoSphereSpace, sceneField, f1, f2, g1]
      norm_num
  have h := touching_contact_valid_collision_invalid twoSphereSpace poseTouch (1 / 20)
    (by norm_num) hin hclear htouch
  exact ⟨by norm_num, hin, hclear, htouch, h.1, h.2⟩

end CollisionSpace
